import Mathlib

/-!
# Verification of the BRAITER Smart PDF Parser pipeline

A shallow embedding of the pure logic of `parser_logic.py` and
`streamlit_app.py`: feature-detection regexes, document joining,
prompt selection, error-message discipline, the structured-data
export of `handle_export_buttons`, and the session-state driven
main flow of the Streamlit app.

External services (LlamaParse, OpenAI, pandas rendering, the file
system) are modelled as explicit parameters or outcome values; the
repository's own branching and string manipulation is translated
directly from the source.
-/

namespace Braiter

/-! ## Python string helpers

`str.strip()`, `str.startswith` and the whitespace class used by the
regex `\s` are modelled over `List Char`. -/

/-- The ASCII whitespace characters recognised by Python's `str.strip()`
    and by the regex class `\s`. -/
def isPyWs (c : Char) : Bool :=
  c = ' ' || c = '\t' || c = '\n' || c = '\r' || c = '\x0b' || c = '\x0c'

/-- `str.strip()` on a character list: drop leading and trailing whitespace. -/
def pyStripList (cs : List Char) : List Char :=
  ((cs.dropWhile isPyWs).reverse.dropWhile isPyWs).reverse

/-- `str.strip()` on strings. -/
def pyStrip (s : String) : String :=
  String.mk (pyStripList s.data)

/-- `p` begins with the character list `pre` (Python `str.startswith`
    restricted to one candidate, over char lists). -/
def beginsWith : List Char → List Char → Bool
  | [], _ => true
  | _ :: _, [] => false
  | p :: ps, c :: cs => p = c && beginsWith ps cs

/-- Python `s.startswith(pre)`. -/
def strStarts (s pre : String) : Bool :=
  beginsWith pre.data s.data

theorem beginsWith_iff (p cs : List Char) :
    beginsWith p cs = true ↔ ∃ v, cs = p ++ v := by
  induction p generalizing cs with
  | nil => simp [beginsWith]
  | cons a ps ih =>
    cases cs with
    | nil => simp [beginsWith]
    | cons c rest =>
      simp only [beginsWith, Bool.and_eq_true, decide_eq_true_eq, ih,
        List.cons_append, List.cons.injEq]
      constructor
      · rintro ⟨rfl, v, rfl⟩
        exact ⟨v, rfl, rfl⟩
      · rintro ⟨v, rfl, rfl⟩
        exact ⟨rfl, v, rfl⟩

theorem beginsWith_append (p a b : List Char) (h : beginsWith p a = true) :
    beginsWith p (a ++ b) = true := by
  rcases (beginsWith_iff p a).mp h with ⟨v, rfl⟩
  exact (beginsWith_iff p (p ++ v ++ b)).mpr ⟨v ++ b, by simp⟩

/-! ## A tiny matcher for the two fixed feature-detection regexes

`contains_tables` uses `\|\s?.*\|\s?\n\|\s?-+`, `contains_images`
uses `!\[.*?\]\(.*?\)`.  Each regex piece becomes a combinator; the
`search` of Python's `re.search` tries every starting position. -/

/-- Match one fixed character, then continue with `Y`. -/
def charThen (a : Char) (Y : List Char → Bool) : List Char → Bool
  | [] => false
  | c :: r => c = a && Y r

/-- Match exactly one whitespace character, then continue with `Y`. -/
def wsThen (Y : List Char → Bool) : List Char → Bool
  | [] => false
  | c :: r => isPyWs c && Y r

/-- `\s?` then `Y`: either continue directly or consume one whitespace. -/
def optWsThen (Y : List Char → Bool) (cs : List Char) : Bool :=
  Y cs || wsThen Y cs

/-- `.*` (any run of non-newline characters) then `Y`, with full
    backtracking over the split point. -/
def dotStarThen (Y : List Char → Bool) : List Char → Bool
  | [] => Y []
  | c :: r => Y (c :: r) || (!(c = '\n') && dotStarThen Y r)

/-- `re.search`: does `p` match at some starting position of `cs`? -/
def searchFrom (p : List Char → Bool) : List Char → Bool
  | [] => p []
  | c :: r => p (c :: r) || searchFrom p r

/-- A list of characters none of which is a newline (what `.` and `.*`
    may consume). -/
def NoNL (m : List Char) : Prop := ∀ c ∈ m, c ≠ '\n'

/-- An optional-whitespace fragment: what `\s?` may consume. -/
def OptWs (w : List Char) : Prop :=
  w = [] ∨ ∃ c, isPyWs c = true ∧ w = [c]

theorem charThen_iff (a : Char) (Y : List Char → Bool) (cs : List Char) :
    charThen a Y cs = true ↔ ∃ r, cs = a :: r ∧ Y r = true := by
  cases cs with
  | nil => simp [charThen]
  | cons c r =>
    simp only [charThen, Bool.and_eq_true, decide_eq_true_eq, List.cons.injEq]
    constructor
    · rintro ⟨rfl, h⟩
      exact ⟨r, ⟨rfl, rfl⟩, h⟩
    · rintro ⟨r2, ⟨rfl, rfl⟩, h⟩
      exact ⟨rfl, h⟩

theorem optWsThen_iff (Y : List Char → Bool) (cs : List Char) :
    optWsThen Y cs = true ↔ ∃ w r, OptWs w ∧ cs = w ++ r ∧ Y r = true := by
  constructor
  · intro h
    rcases Bool.or_eq_true_iff.mp h with h1 | h1
    · exact ⟨[], cs, Or.inl rfl, rfl, h1⟩
    · cases cs with
      | nil => simp [wsThen] at h1
      | cons c r =>
        simp only [wsThen, Bool.and_eq_true] at h1
        exact ⟨[c], r, Or.inr ⟨c, h1.1, rfl⟩, rfl, h1.2⟩
  · rintro ⟨w, r, hw, rfl, hY⟩
    rcases hw with rfl | ⟨c, hws, rfl⟩
    · exact Bool.or_eq_true_iff.mpr (Or.inl hY)
    · exact Bool.or_eq_true_iff.mpr (Or.inr (by simp [wsThen, hws, hY]))

theorem dotStarThen_iff (Y : List Char → Bool) (cs : List Char) :
    dotStarThen Y cs = true ↔ ∃ m r, NoNL m ∧ cs = m ++ r ∧ Y r = true := by
  induction cs with
  | nil =>
    simp only [dotStarThen]
    constructor
    · intro h
      exact ⟨[], [], by simp [NoNL], rfl, h⟩
    · rintro ⟨m, r, hm, hmr, hY⟩
      rcases List.append_eq_nil.mp hmr.symm with ⟨rfl, rfl⟩
      exact hY
  | cons c rest ih =>
    simp only [dotStarThen, Bool.or_eq_true, Bool.and_eq_true, Bool.not_eq_true',
      decide_eq_false_iff_not]
    constructor
    · rintro (h | ⟨hnl, h⟩)
      · exact ⟨[], c :: rest, by simp [NoNL], rfl, h⟩
      · rcases ih.mp h with ⟨m, r, hm, rfl, hY⟩
        refine ⟨c :: m, r, ?_, rfl, hY⟩
        intro x hx
        rcases List.mem_cons.mp hx with rfl | hx
        · exact hnl
        · exact hm x hx
    · rintro ⟨m, r, hm, hmr, hY⟩
      cases m with
      | nil =>
        left
        simpa using hmr ▸ hY
      | cons c2 m2 =>
        rw [List.cons_append] at hmr
        injection hmr with h1 h2
        subst h1
        right
        refine ⟨hm c (List.mem_cons_self c m2), ?_⟩
        exact ih.mpr ⟨m2, r, fun x hx => hm x (List.mem_cons_of_mem _ hx), h2, hY⟩

theorem searchFrom_iff (p : List Char → Bool) (cs : List Char) :
    searchFrom p cs = true ↔ ∃ u r, cs = u ++ r ∧ p r = true := by
  induction cs with
  | nil =>
    simp only [searchFrom]
    constructor
    · intro h
      exact ⟨[], [], rfl, h⟩
    · rintro ⟨u, r, hur, h⟩
      rcases List.append_eq_nil.mp hur.symm with ⟨rfl, rfl⟩
      exact h
  | cons c rest ih =>
    simp only [searchFrom, Bool.or_eq_true]
    constructor
    · rintro (h | h)
      · exact ⟨[], c :: rest, rfl, h⟩
      · rcases ih.mp h with ⟨u, r, rfl, hp⟩
        exact ⟨c :: u, r, rfl, hp⟩
    · rintro ⟨u, r, hur, h⟩
      cases u with
      | nil =>
        left
        simpa using hur ▸ h
      | cons c2 u2 =>
        rw [List.cons_append] at hur
        injection hur with h1 h2
        subst h1
        right
        exact ih.mpr ⟨u2, r, h2, h⟩

/-! ## Feature detection (`contains_tables`, `contains_images`) -/

/-- `-+`: at least one dash (existence only needs the first one). -/
def dashTail : List Char → Bool :=
  charThen '-' (fun _ => true)

/-- `\|\s?-+`: the dashed part of a separator row. -/
def barDash : List Char → Bool :=
  charThen '|' (optWsThen dashTail)

/-- `\|\s?\n\|\s?-+`: end of a header row followed by a separator row. -/
def sepTail : List Char → Bool :=
  charThen '|' (optWsThen (charThen '\n' barDash))

/-- The whole table pattern `\|\s?.*\|\s?\n\|\s?-+` anchored at the start. -/
def rowStart : List Char → Bool :=
  charThen '|' (optWsThen (dotStarThen sepTail))

/-- `parser_logic.contains_tables`: empty text short-circuits to `False`,
    otherwise `re.search` the table pattern. -/
def contains_tables (s : String) : Bool :=
  if s = "" then false
  else searchFrom rowStart s.data

/-- `.*?\)`: lazily reach a closing parenthesis. -/
def closeParen : List Char → Bool :=
  dotStarThen (charThen ')' (fun _ => true))

/-- `.*?\]\(.*?\)`: reach `](` and then a closing parenthesis. -/
def afterBang : List Char → Bool :=
  dotStarThen (charThen ']' (charThen '(' closeParen))

/-- The whole image pattern `!\[.*?\]\(.*?\)` anchored at the start. -/
def imgAt : List Char → Bool :=
  charThen '!' (charThen '[' afterBang)

/-- `parser_logic.contains_images`: empty text short-circuits to `False`,
    otherwise the literal `![image]` substring test, or `re.search` of the
    Markdown image pattern. -/
def contains_images (s : String) : Bool :=
  if s = "" then false
  else searchFrom (beginsWith ("![image]".data)) s.data || searchFrom imgAt s.data

/-- Declarative semantics of `re.search(r"\|\s?.*\|\s?\n\|\s?-+", text)`:
    somewhere in the text, a pipe, optional whitespace, a newline-free run,
    a pipe, optional whitespace, a newline, a pipe, optional whitespace and
    at least one dash. -/
def TableMatch (s : List Char) : Prop :=
  ∃ u w1 m w2 w3 v, OptWs w1 ∧ NoNL m ∧ OptWs w2 ∧ OptWs w3 ∧
    s = u ++ '|' :: (w1 ++ (m ++ '|' :: (w2 ++ '\n' :: '|' :: (w3 ++ '-' :: v))))

/-- Declarative semantics of the image check: the literal substring
    `![image]`, or somewhere `![`, a newline-free run, `](`, a newline-free
    run and `)`. -/
def ImageMatch (s : List Char) : Prop :=
  (∃ u v, s = u ++ ("![image]".data ++ v)) ∨
  (∃ u m1 m2 v, NoNL m1 ∧ NoNL m2 ∧
    s = u ++ '!' :: '[' :: (m1 ++ ']' :: '(' :: (m2 ++ ')' :: v)))

theorem dashTail_iff (cs : List Char) :
    dashTail cs = true ↔ ∃ v, cs = '-' :: v := by
  simp only [dashTail, charThen_iff]
  constructor
  · rintro ⟨r, rfl, -⟩
    exact ⟨r, rfl⟩
  · rintro ⟨v, rfl⟩
    exact ⟨v, rfl, trivial⟩

theorem barDash_iff (cs : List Char) :
    barDash cs = true ↔ ∃ w v, OptWs w ∧ cs = '|' :: (w ++ '-' :: v) := by
  simp only [barDash, charThen_iff, optWsThen_iff, dashTail_iff]
  constructor
  · rintro ⟨r, rfl, w, r2, hw, rfl, v, rfl⟩
    exact ⟨w, v, hw, rfl⟩
  · rintro ⟨w, v, hw, rfl⟩
    exact ⟨w ++ '-' :: v, rfl, w, '-' :: v, hw, rfl, v, rfl⟩

theorem sepTail_iff (cs : List Char) :
    sepTail cs = true ↔ ∃ w2 w3 v, OptWs w2 ∧ OptWs w3 ∧
      cs = '|' :: (w2 ++ '\n' :: '|' :: (w3 ++ '-' :: v)) := by
  simp only [sepTail, charThen_iff, optWsThen_iff, barDash_iff]
  constructor
  · rintro ⟨r, rfl, w2, r2, hw2, rfl, r3, rfl, w3, v, hw3, rfl⟩
    exact ⟨w2, w3, v, hw2, hw3, rfl⟩
  · rintro ⟨w2, w3, v, hw2, hw3, rfl⟩
    exact ⟨w2 ++ '\n' :: '|' :: (w3 ++ '-' :: v), rfl,
      w2, '\n' :: '|' :: (w3 ++ '-' :: v), hw2, rfl,
      '|' :: (w3 ++ '-' :: v), rfl, w3, v, hw3, rfl⟩

theorem tableSearch_iff (cs : List Char) :
    searchFrom rowStart cs = true ↔ TableMatch cs := by
  simp only [searchFrom_iff, TableMatch, rowStart, charThen_iff, optWsThen_iff,
    dotStarThen_iff, sepTail_iff]
  constructor
  · rintro ⟨u, r, rfl, r1, rfl, w1, r2, hw1, rfl, m, r3, hm, rfl,
      w2, w3, v, hw2, hw3, rfl⟩
    exact ⟨u, w1, m, w2, w3, v, hw1, hm, hw2, hw3, rfl⟩
  · rintro ⟨u, w1, m, w2, w3, v, hw1, hm, hw2, hw3, rfl⟩
    refine ⟨u, _, rfl, _, rfl, w1, _, hw1, rfl, m, _, hm, rfl,
      w2, w3, v, hw2, hw3, rfl⟩

theorem closeParen_iff (cs : List Char) :
    closeParen cs = true ↔ ∃ m v, NoNL m ∧ cs = m ++ ')' :: v := by
  simp only [closeParen, dotStarThen_iff, charThen_iff]
  constructor
  · rintro ⟨m, r, hm, rfl, r2, rfl, -⟩
    exact ⟨m, r2, hm, rfl⟩
  · rintro ⟨m, v, hm, rfl⟩
    exact ⟨m, ')' :: v, hm, rfl, v, rfl, trivial⟩

theorem afterBang_iff (cs : List Char) :
    afterBang cs = true ↔ ∃ m1 m2 v, NoNL m1 ∧ NoNL m2 ∧
      cs = m1 ++ ']' :: '(' :: (m2 ++ ')' :: v) := by
  simp only [afterBang, dotStarThen_iff, charThen_iff, closeParen_iff]
  constructor
  · rintro ⟨m1, r, hm1, rfl, r2, rfl, r3, rfl, m2, v, hm2, rfl⟩
    exact ⟨m1, m2, v, hm1, hm2, rfl⟩
  · rintro ⟨m1, m2, v, hm1, hm2, rfl⟩
    exact ⟨m1, ']' :: '(' :: (m2 ++ ')' :: v), hm1, rfl,
      '(' :: (m2 ++ ')' :: v), rfl, m2 ++ ')' :: v, rfl, m2, v, hm2, rfl⟩

theorem imageSearch_iff (cs : List Char) :
    searchFrom imgAt cs = true ↔
      ∃ u m1 m2 v, NoNL m1 ∧ NoNL m2 ∧
        cs = u ++ '!' :: '[' :: (m1 ++ ']' :: '(' :: (m2 ++ ')' :: v)) := by
  simp only [searchFrom_iff, imgAt, charThen_iff, afterBang_iff]
  constructor
  · rintro ⟨u, r, rfl, r1, rfl, r2, rfl, m1, m2, v, hm1, hm2, rfl⟩
    exact ⟨u, m1, m2, v, hm1, hm2, rfl⟩
  · rintro ⟨u, m1, m2, v, hm1, hm2, rfl⟩
    refine ⟨u, _, rfl, _, rfl, _, rfl, m1, m2, v, hm1, hm2, rfl⟩

theorem litSearch_iff (L cs : List Char) :
    searchFrom (beginsWith L) cs = true ↔ ∃ u v, cs = u ++ (L ++ v) := by
  simp only [searchFrom_iff, beginsWith_iff]
  constructor
  · rintro ⟨u, r, rfl, v, rfl⟩
    exact ⟨u, v, rfl⟩
  · rintro ⟨u, v, rfl⟩
    exact ⟨u, L ++ v, rfl, v, rfl⟩

theorem TableMatch_nil_false : ¬ TableMatch [] := by
  rintro ⟨u, w1, m, w2, w3, v, -, -, -, -, h⟩
  rcases List.append_eq_nil.mp h.symm with ⟨-, h2⟩
  exact List.cons_ne_nil _ _ h2

theorem ImageMatch_nil_false : ¬ ImageMatch [] := by
  rintro (⟨u, v, h⟩ | ⟨u, m1, m2, v, -, -, h⟩)
  · rcases List.append_eq_nil.mp h.symm with ⟨-, h2⟩
    rcases List.append_eq_nil.mp h2 with ⟨h3, -⟩
    exact (by decide : "![image]".data ≠ []) h3
  · rcases List.append_eq_nil.mp h.symm with ⟨-, h2⟩
    exact List.cons_ne_nil _ _ h2

/-! ## `parse_pdf`: joining the documents returned by the parse service -/

/-- The Python truthiness filter `if doc.text and doc.text.strip()`:
    keep a document whose text is non-empty and not whitespace-only. -/
def keepDoc (t : String) : Bool :=
  !(t = "") && !(pyStrip t = "")

/-- Python `sep.join(parts)`. -/
def strJoin (sep : String) : List String → String
  | [] => ""
  | a :: rest =>
    match rest with
    | [] => a
    | _ :: _ => a ++ sep ++ strJoin sep rest

/-- `"\n\n".join([doc.text for doc in documents if doc.text and doc.text.strip()])`
    from `parse_pdf` (the `encode/decode` round-trip is the identity on
    valid Unicode text). -/
def joinDocs (docs : List String) : String :=
  strJoin "\n\n" (docs.filter keepDoc)

/-- What the external LlamaParse call can come back with: a document list,
    or one of the two exception classes caught by `parse_pdf`. -/
inductive ParseOutcome where
  | ok (docs : List String)
  | apiError (msg : String)
  | otherError (msg : String)

/-- `parser_logic.parse_pdf`, with the external call replaced by its
    outcome.  Every branch of the Python function returns a string. -/
def parse_pdf (hasKey : Bool) (outcome : ParseOutcome) : String :=
  if hasKey = false then
    "⚠️ Error: LLAMA_CLOUD_API_KEY not configured. PDF parsing cannot proceed."
  else
    match outcome with
    | .ok docs => joinDocs docs
    | .apiError e =>
        "⚠️ Error: PDF parsing failed due to an API issue (LlamaParse). Details: " ++ e
    | .otherError e =>
        "⚠️ Error: Failed to parse PDF. The file might be corrupted, password-protected, or an unexpected error occurred. Details: " ++ e

/-- Does the list still contain a document that the filter keeps? -/
def hasKept : List String → Bool
  | [] => false
  | d :: ds => keepDoc d || hasKept ds

/-- The claim's reading of the join: walk the documents in order, skip the
    empty-after-strip ones, and put `"\n\n"` between the kept ones. -/
def joinSpec : List String → String
  | [] => ""
  | d :: ds =>
    if keepDoc d = true then
      (if hasKept ds = true then d ++ "\n\n" ++ joinSpec ds else d)
    else joinSpec ds

theorem filter_keep_nil_iff (ds : List String) :
    ds.filter keepDoc = [] ↔ hasKept ds = false := by
  induction ds with
  | nil => simp [hasKept]
  | cons d ds ih =>
    simp only [hasKept, List.filter_cons, Bool.or_eq_false_iff]
    by_cases h : keepDoc d = true
    · simp [h]
    · have h0 : keepDoc d = false := by simpa using h
      simp [h0, ih]

theorem joinDocs_eq_joinSpec (docs : List String) :
    joinDocs docs = joinSpec docs := by
  induction docs with
  | nil => rfl
  | cons d ds ih =>
    by_cases h : keepDoc d = true
    · simp only [joinDocs, List.filter_cons, h, if_pos, joinSpec]
      by_cases h2 : hasKept ds = true
      · have h3 : ds.filter keepDoc ≠ [] := by
          intro h4
          rw [(filter_keep_nil_iff ds).mp h4] at h2
          exact Bool.false_ne_true h2
        rw [if_pos h2]
        rcases List.exists_cons_of_ne_nil h3 with ⟨b, bs, hb⟩
        rw [hb, strJoin]
        rw [← hb, ← joinDocs, ih]
      · have h3 : ds.filter keepDoc = [] :=
          (filter_keep_nil_iff ds).mpr (Bool.not_eq_true _ ▸ h2)
        rw [if_neg h2, h3, strJoin]
    · simp only [joinDocs, List.filter_cons, h, joinSpec, if_neg h]
      exact ih

/-! ## GPT prompt selection and `transform_markdown_with_gpt` -/

/-- `PRESET_GPT_PROMPTS` from `parser_logic.py`. -/
def PRESET_GPT_PROMPTS : List (String × String) :=
  [("table", "You are professional in analyzing and structuring documents. In the document, identify all tasks/questions and their respective answers. Structure them and convert the input into a well-structured CSV table. Consider a column for each answer per task/question. Take the exact formulation of each question and each answer. Make a column stating the correct answers. Be aware of correct CSV formatting and consider empty spaces if necessary. Separate all with semicolon. Encode in UTF-8, if you see Umlaute like ö,ä,ü,ß,... the transform them properly in oe,ae,ue,ss, etc."),
   ("summary", "You are an expert document summarizer. Convert the input markdown into a well-structured executive summary."),
   ("report", "You are a professional analyst. Turn the input markdown into a clear and concise report."),
   ("article", "You are a skilled writer. Transform the input markdown into a well-written, engaging article.")]

/-- `DEFAULT_GPT_PROMPT` from `parser_logic.py`. -/
def DEFAULT_GPT_PROMPT : String := "You are a helpful assistant."

/-- Python's `x or default` for an optional string: `None` and `""` are
    falsy. -/
def pyOr (sel : Option String) (dflt : String) : String :=
  match sel with
  | none => dflt
  | some s => if s = "" then dflt else s

/-- Python's `dict.get(key, default)` where the key may be `None`
    (and `None` is never a key of the preset dictionary). -/
def dictGet (d : List (String × String)) (key : Option String) (dflt : String) : String :=
  match key with
  | none => dflt
  | some k => (d.lookup k).getD dflt

/-- The system prompt chosen by `transform_markdown_with_gpt`:
    `PRESET_GPT_PROMPTS.get(prompt_type_or_custom, prompt_type_or_custom or DEFAULT_GPT_PROMPT)`. -/
def chosenPrompt (sel : Option String) : String :=
  dictGet PRESET_GPT_PROMPTS sel (pyOr sel DEFAULT_GPT_PROMPT)

/-- What the OpenAI chat-completion call can come back with: a message
    content, or one of the five exception classes the function catches. -/
inductive GptOutcome where
  | ok (content : String)
  | authError
  | rateLimitError
  | connectionError
  | apiError (msg : String)
  | otherError (msg : String)

/-- `parser_logic.transform_markdown_with_gpt`, with the external call
    replaced by its outcome.  Every branch of the Python function returns
    a string (the `encode/decode` round-trip is again the identity). -/
def transform_markdown_with_gpt (hasKey : Bool) (outcome : GptOutcome)
    (markdownText : String) : String :=
  if hasKey = false then
    "⚠️ Error: OPENAI_API_KEY not configured. AI transformation cannot proceed."
  else if pyStrip markdownText = "" then
    "⚠️ Error: Parsed markdown is empty. Please re-parse the document before running GPT transformation."
  else
    match outcome with
    | .ok content =>
        if pyStrip content = "" then
          "ℹ️ AI transformation returned an empty result. You might want to try a different prompt or check the input document."
        else pyStrip content
    | .authError =>
        "⚠️ Error: AI transformation failed due to an authentication issue with the OpenAI API. Please check your API key configuration."
    | .rateLimitError =>
        "⚠️ Error: AI transformation failed because the API rate limit has been exceeded. Please try again later."
    | .connectionError =>
        "⚠️ Error: AI transformation failed due to a network issue connecting to the OpenAI API. Please check your internet connection."
    | .apiError e =>
        "⚠️ Error: AI transformation failed due to an OpenAI API error. Details: " ++ e
    | .otherError e =>
        "⚠️ Error: An unexpected error occurred during AI transformation. Details: " ++ e

/-! ## Structured-data export (`handle_export_buttons`) -/

/-- JSON values, as produced by `json.loads`. -/
inductive Json where
  | null
  | bool (b : Bool)
  | num (n : Int)
  | str (s : String)
  | arr (xs : List Json)
  | obj (fields : List (String × Json))

/-- The best-effort structured interpretation of the transformed output:
    `json.loads(transformed_text)`, falling back on `JSONDecodeError` to
    `{"ai_output": transformed_text}`.  The parser itself is a third-party
    library, so it is a parameter returning `none` exactly on a decode
    error. -/
def structuredData (parse : String → Option Json) (transformed : String) : Json :=
  match parse transformed with
  | some j => j
  | none => Json.obj [("ai_output", Json.str transformed)]

/-- A Python runtime value that is either `str` or `bytes` (bytes carry
    the text they decode to; only the type tag matters here). -/
inductive PyVal where
  | pstr (s : String)
  | pbytes (s : String)

/-- Python `+` on `str`/`bytes` values: concatenating mixed types raises
    `TypeError`. -/
def pyAdd : PyVal → PyVal → Except String PyVal
  | .pstr a, .pstr b => .ok (.pstr (a ++ b))
  | .pbytes a, .pbytes b => .ok (.pbytes (a ++ b))
  | .pstr _, .pbytes _ =>
      .error "TypeError: can only concatenate str (not bytes) to str"
  | .pbytes _, .pstr _ =>
      .error "TypeError: cannot concat str to bytes"

/-- `str.encode("utf-8")`: a `str` becomes a `bytes` value. -/
def strEncodeUtf8 (s : String) : PyVal :=
  PyVal.pbytes s

/-- The shape of a pandas `DataFrame` as far as `df.empty` is concerned:
    a row count and a column list. -/
structure DataFrame where
  nrows : Nat
  cols : List String

/-- Is a JSON value a dict? -/
def Json.isObj : Json → Bool
  | .obj _ => true
  | _ => false

/-- The keys of a JSON dict (empty for non-dicts). -/
def Json.keys : Json → List String
  | .obj fields => fields.map Prod.fst
  | _ => []

/-- Append the keys that are not present yet (pandas column union in
    order of first appearance). -/
def unionKeys (acc ks : List String) : List String :=
  ks.foldl (fun a k => if k ∈ a then a else a ++ [k]) acc

/-- The `DataFrame` built by `handle_export_buttons`:
    a list of dicts becomes one row per dict, a dict becomes a single row,
    anything else becomes a single `"AI Output"` row. -/
def buildDataFrame (j : Json) : DataFrame :=
  match j with
  | .arr xs =>
      if xs.all Json.isObj then
        ⟨xs.length, xs.foldl (fun a x => unionKeys a x.keys) []⟩
      else ⟨1, ["AI Output"]⟩
  | .obj fields => ⟨1, fields.map Prod.fst⟩
  | _ => ⟨1, ["AI Output"]⟩

/-- pandas `df.empty`: one of the axes has length zero. -/
def DataFrame.isEmptyDf (df : DataFrame) : Bool :=
  df.nrows = 0 || df.cols.isEmpty

/-- The download buttons `handle_export_buttons` can offer. -/
inductive ExportButton where
  | txt
  | md
  | docx
  | json
  | csv
  | excel
  | rawJson
deriving DecidableEq

/-- Line 112 of the app: offer the raw-output JSON only when the parsed
    object is not the fallback record `{"ai_output": transformed_text}`. -/
def rawJsonOffered (j : Json) (transformed : String) : Bool :=
  match j with
  | .obj fields =>
      match fields.lookup "ai_output" with
      | some (Json.str s) => !(s = transformed)
      | _ => true
  | _ => true

/-- `streamlit_app.handle_export_buttons`: returns the download buttons
    offered and the error messages shown.  `toCsv` stands for pandas'
    `df.to_csv`, which returns a `str`; the source then evaluates
    `"\uFEFF" + df.to_csv(...).encode("utf-8")`, i.e. `str + bytes`. -/
def handle_export_buttons (parse : String → Option Json)
    (toCsv : DataFrame → String) (transformed : String) :
    List ExportButton × List String :=
  let base := [ExportButton.txt, ExportButton.md, ExportButton.docx]
  let jsonObj := structuredData parse transformed
  let df := buildDataFrame jsonObj
  if df.isEmptyDf then (base, [])
  else
    match pyAdd (PyVal.pstr "\uFEFF") (strEncodeUtf8 (toCsv df)) with
    | .ok _ => (base ++ [ExportButton.json, ExportButton.csv, ExportButton.excel], [])
    | .error e =>
        (base ++ [ExportButton.json] ++
           (if rawJsonOffered jsonObj transformed then [ExportButton.rawJson] else []),
         ["Error preparing data for Table/JSON/CSV/Excel export: " ++ e])

/-! ## The main app flow (`streamlit_app.py`, lines 118-210)

One Streamlit script run for an uploaded file is a function from the
session state and the upload to the new session state plus the ordered
list of processing steps the run performs.  The external services are
parameters: `svc` is the parse service applied to the bytes stored in
the temporary PDF file, `gpt` is the whole GPT transformation applied
to the parsed text, and `doTransform` is whether the user pressed the
"Transform with GPT" button on this run. -/

/-- `ERROR_PREFIX` in `streamlit_app.py`. -/
def errorMark : String := "⚠️ Error:"

/-- `INFO_PREFIX` in `streamlit_app.py`. -/
def infoMark : String := "ℹ️ Info:"

/-- `GPT_MIN_TEXT_LENGTH` in `streamlit_app.py`. -/
def GPT_MIN_TEXT_LENGTH : Nat := 100

/-- The session state the app keeps between runs: `last_file_name`,
    `parsed_text_or_error` and the temporary PDF file (path id plus the
    bytes that were written into it). -/
structure AppState where
  lastFileName : Option String
  parsedTextOrError : Option String
  tempPdf : Option (Nat × String)
deriving DecidableEq

/-- The externally visible processing steps of one script run. -/
inductive Step where
  | parseCall
  | languageDetect
  | tablesCheck
  | imagesCheck
  | transformCall
  | interpretOutput
  | serializeExports
  | pageImageExtract
  | embeddedImageExtract
deriving DecidableEq

/-- Lines 150-204: everything the run does after the parsed text (or
    error string) is in hand.  Parsing errors short-circuit; feature
    detection always runs on a successful parse; the GPT section is
    gated by `GPT_MIN_TEXT_LENGTH` and the button; export (JSON
    interpretation plus serialization) happens only on a successful
    transformation; the two image extractions close every successful
    run. -/
def pageFlow (gpt : String → String) (doTransform : Bool) (t : String) : List Step :=
  if strStarts t errorMark = true then []
  else
    [Step.languageDetect, Step.tablesCheck, Step.imagesCheck]
    ++ (if GPT_MIN_TEXT_LENGTH ≤ (pyStrip t).length then
          (if doTransform then
            Step.transformCall ::
              (if strStarts (gpt t) errorMark = true then []
               else if strStarts (gpt t) infoMark = true then []
               else [Step.interpretOutput, Step.serializeExports])
           else [])
        else [])
    ++ [Step.pageImageExtract, Step.embeddedImageExtract]

/-- Lines 125-128: a changed (or first) file name clears the cached
    parse result and the temporary file. -/
def resetState (name : String) (s : AppState) : AppState :=
  if s.lastFileName = some name then s else ⟨some name, none, none⟩

/-- Lines 131-134: a missing temporary file is recreated from the
    uploaded bytes. -/
def ensureTemp (fresh : Nat) (content : String) (s : AppState) : AppState :=
  if s.tempPdf = none then ⟨s.lastFileName, s.parsedTextOrError, some (fresh, content)⟩
  else s

/-- Lines 139-148 plus the rest of the run: a missing parse result
    triggers the parse service on the bytes stored in the temporary
    file, then the page flow runs on the parsed text or cached result. -/
def parsePhase (svc gpt : String → String) (doTransform : Bool)
    (content : String) (s2 : AppState) : AppState × List Step :=
  match s2.parsedTextOrError with
  | some t => (s2, pageFlow gpt doTransform t)
  | none =>
      (⟨s2.lastFileName, some (svc ((s2.tempPdf.map Prod.snd).getD content)), s2.tempPdf⟩,
       Step.parseCall ::
         pageFlow gpt doTransform (svc ((s2.tempPdf.map Prod.snd).getD content)))

/-- Lines 123-204: one whole script run for an uploaded file. -/
def runUpload (svc gpt : String → String) (doTransform : Bool) (fresh : Nat)
    (name content : String) (s : AppState) : AppState × List Step :=
  parsePhase svc gpt doTransform content (ensureTemp fresh content (resetState name s))

/-! ## Helper lemmas about the embedded app -/

theorem strStarts_append (a b p : String) (h : strStarts a p = true) :
    strStarts (a ++ b) p = true := by
  unfold strStarts at *
  rw [String.data_append]
  exact beginsWith_append _ _ _ h

/-! ## The claims -/

/-- Claim C5: `contains_tables(text)` returns `True` exactly when the text
    matches the markdown-table regex `\|\s?.*\|\s?\n\|\s?-+`, and returns
    `False` for the empty string. -/
theorem claim5_tables_regex (s : String) :
    (contains_tables s = true ↔ TableMatch s.data) ∧ contains_tables "" = false := by
  constructor
  · by_cases h : s = ""
    · subst h
      simp only [contains_tables, if_pos rfl]
      exact iff_of_false (by simp) TableMatch_nil_false
    · rw [contains_tables, if_neg h]
      exact tableSearch_iff s.data
  · rfl

/-- Claim C6: `contains_images(text)` returns `True` exactly when the text
    contains the literal substring `![image]` or matches the image regex
    `!\[.*?\]\(.*?\)`, and returns `False` for the empty string. -/
theorem claim6_images_regex (s : String) :
    (contains_images s = true ↔ ImageMatch s.data) ∧ contains_images "" = false := by
  constructor
  · by_cases h : s = ""
    · subst h
      simp only [contains_images, if_pos rfl]
      exact iff_of_false (by simp) ImageMatch_nil_false
    · rw [contains_images, if_neg h, Bool.or_eq_true]
      exact or_congr (litSearch_iff _ _) (imageSearch_iff _)
  · rfl

/-- Claim C7: when the parse service returns a list of documents,
    `parse_pdf` returns the texts of the documents that are non-empty
    after stripping, joined in order with a double newline. -/
theorem claim7_join_documents (docs : List String) :
    parse_pdf true (ParseOutcome.ok docs) = joinSpec docs := by
  show joinDocs docs = joinSpec docs
  exact joinDocs_eq_joinSpec docs

/-- Claim C4: the system prompt of `transform_markdown_with_gpt` is the
    preset text for a preset key, the selector itself for any other
    non-empty string, and the default prompt for `None` or the empty
    string. -/
theorem claim4_prompt_selection :
    (∀ s v, PRESET_GPT_PROMPTS.lookup s = some v → chosenPrompt (some s) = v)
    ∧ chosenPrompt none = DEFAULT_GPT_PROMPT
    ∧ chosenPrompt (some "") = DEFAULT_GPT_PROMPT
    ∧ ∀ s : String, (PRESET_GPT_PROMPTS.lookup s).isSome = true
        ∨ s = "" ∨ chosenPrompt (some s) = s := by
  refine ⟨?_, rfl, by decide, ?_⟩
  · intro s v h
    simp [chosenPrompt, dictGet, h]
  · intro s
    by_cases h1 : (PRESET_GPT_PROMPTS.lookup s).isSome = true
    · exact Or.inl h1
    · by_cases h2 : s = ""
      · exact Or.inr (Or.inl h2)
      · refine Or.inr (Or.inr ?_)
        have h3 : PRESET_GPT_PROMPTS.lookup s = none :=
          Option.not_isSome_iff_eq_none.mp h1
        simp [chosenPrompt, dictGet, h3, pyOr, h2]

/-- Witness for C4: the preset key `"summary"` selects the summary
    preset prompt. -/
theorem claim4_prompt_selection_witness :
    chosenPrompt (some "summary") =
      "You are an expert document summarizer. Convert the input markdown into a well-structured executive summary." :=
  claim4_prompt_selection.1 "summary" _ rfl

/-- Claim C1: the exporter first parses the transformed text as JSON and
    exactly when parsing fails it uses the flat record
    `{"ai_output": text}` as the structured data. -/
theorem claim1_json_fallback (parse : String → Option Json) (t : String) :
    (parse t = none ∧ structuredData parse t = Json.obj [("ai_output", Json.str t)])
    ∨ (∃ j, parse t = some j ∧ structuredData parse t = j) := by
  cases h : parse t with
  | none => exact Or.inl ⟨rfl, by simp [structuredData, h]⟩
  | some j => exact Or.inr ⟨j, rfl, by simp [structuredData, h]⟩

/-- Claim C2 (bug): the CSV conversion in `handle_export_buttons`
    evaluates `str + bytes`, which raises `TypeError` on every input, so
    the CSV and Excel downloads are never offered. -/
theorem claim2_csv_export_type_error (parse : String → Option Json)
    (toCsv : DataFrame → String) (t : String) :
    ((handle_export_buttons parse toCsv t).1.contains ExportButton.csv = false
      ∧ (handle_export_buttons parse toCsv t).1.contains ExportButton.excel = false)
    ∧ ∃ e, pyAdd (PyVal.pstr "\uFEFF")
        (strEncodeUtf8 (toCsv (buildDataFrame (structuredData parse t)))) =
          Except.error e := by
  constructor
  · simp only [handle_export_buttons, strEncodeUtf8, pyAdd]
    split
    · exact ⟨by decide, by decide⟩
    · split <;> exact ⟨by decide, by decide⟩
  · exact ⟨_, rfl⟩

/-- Claim C8: `parse_pdf` and `transform_markdown_with_gpt` always return
    a string, and each failure path individually returns an
    `"⚠️ Error:"`-prefixed string: missing API key, empty input, and every
    caught exception class.  The single exception is the empty-LLM-result
    path, which returns an `"ℹ️"`-prefixed (and not `"⚠️ Error:"`-prefixed)
    string; a non-empty LLM result is returned as-is (stripped).  The app
    decides between the error branch and the success processing solely by
    the `"⚠️ Error:"` prefix test on the returned string. -/
theorem claim8_error_message_discipline :
    (∀ outc : ParseOutcome, strStarts (parse_pdf false outc) errorMark = true)
    ∧ (∀ e, strStarts (parse_pdf true (ParseOutcome.apiError e)) errorMark = true)
    ∧ (∀ e, strStarts (parse_pdf true (ParseOutcome.otherError e)) errorMark = true)
    ∧ (∀ docs, parse_pdf true (ParseOutcome.ok docs) = joinDocs docs)
    ∧ (∀ (outc : GptOutcome) (t : String),
        strStarts (transform_markdown_with_gpt false outc t) errorMark = true)
    ∧ (∀ (outc : GptOutcome) (t : String), pyStrip t = "" →
        strStarts (transform_markdown_with_gpt true outc t) errorMark = true)
    ∧ (∀ t : String, pyStrip t ≠ "" → ∀ e,
        strStarts (transform_markdown_with_gpt true GptOutcome.authError t) errorMark = true
        ∧ strStarts (transform_markdown_with_gpt true GptOutcome.rateLimitError t) errorMark = true
        ∧ strStarts (transform_markdown_with_gpt true GptOutcome.connectionError t) errorMark = true
        ∧ strStarts (transform_markdown_with_gpt true (GptOutcome.apiError e) t) errorMark = true
        ∧ strStarts (transform_markdown_with_gpt true (GptOutcome.otherError e) t) errorMark = true)
    ∧ (∀ (c t : String), pyStrip t ≠ "" → pyStrip c = "" →
        strStarts (transform_markdown_with_gpt true (GptOutcome.ok c) t) "ℹ️" = true
        ∧ strStarts (transform_markdown_with_gpt true (GptOutcome.ok c) t) errorMark = false)
    ∧ (∀ (c t : String), pyStrip t ≠ "" → pyStrip c ≠ "" →
        transform_markdown_with_gpt true (GptOutcome.ok c) t = pyStrip c)
    ∧ (∀ (gpt : String → String) (dt : Bool) (t : String),
        (pageFlow gpt dt t).contains Step.languageDetect = !(strStarts t errorMark)) := by
  refine ⟨?_, ?_, ?_, ?_, ?_, ?_, ?_, ?_, ?_, ?_⟩
  · intro outc
    show strStarts "⚠️ Error: LLAMA_CLOUD_API_KEY not configured. PDF parsing cannot proceed." errorMark = true
    decide
  · intro e
    show strStarts ("⚠️ Error: PDF parsing failed due to an API issue (LlamaParse). Details: " ++ e) errorMark = true
    exact strStarts_append _ _ _ (by decide)
  · intro e
    show strStarts ("⚠️ Error: Failed to parse PDF. The file might be corrupted, password-protected, or an unexpected error occurred. Details: " ++ e) errorMark = true
    exact strStarts_append _ _ _ (by decide)
  · intro docs
    rfl
  · intro outc t
    show strStarts "⚠️ Error: OPENAI_API_KEY not configured. AI transformation cannot proceed." errorMark = true
    decide
  · intro outc t hT
    have e1 : transform_markdown_with_gpt true outc t =
        "⚠️ Error: Parsed markdown is empty. Please re-parse the document before running GPT transformation." := by
      simp [transform_markdown_with_gpt, hT]
    rw [e1]
    decide
  · intro t hT e
    refine ⟨?_, ?_, ?_, ?_, ?_⟩
    · have e1 : transform_markdown_with_gpt true GptOutcome.authError t =
          "⚠️ Error: AI transformation failed due to an authentication issue with the OpenAI API. Please check your API key configuration." := by
        simp [transform_markdown_with_gpt, hT]
      rw [e1]
      decide
    · have e1 : transform_markdown_with_gpt true GptOutcome.rateLimitError t =
          "⚠️ Error: AI transformation failed because the API rate limit has been exceeded. Please try again later." := by
        simp [transform_markdown_with_gpt, hT]
      rw [e1]
      decide
    · have e1 : transform_markdown_with_gpt true GptOutcome.connectionError t =
          "⚠️ Error: AI transformation failed due to a network issue connecting to the OpenAI API. Please check your internet connection." := by
        simp [transform_markdown_with_gpt, hT]
      rw [e1]
      decide
    · have e1 : transform_markdown_with_gpt true (GptOutcome.apiError e) t =
          "⚠️ Error: AI transformation failed due to an OpenAI API error. Details: " ++ e := by
        simp [transform_markdown_with_gpt, hT]
      rw [e1]
      exact strStarts_append _ _ _ (by decide)
    · have e1 : transform_markdown_with_gpt true (GptOutcome.otherError e) t =
          "⚠️ Error: An unexpected error occurred during AI transformation. Details: " ++ e := by
        simp [transform_markdown_with_gpt, hT]
      rw [e1]
      exact strStarts_append _ _ _ (by decide)
  · intro c t hT hC
    have e1 : transform_markdown_with_gpt true (GptOutcome.ok c) t =
        "ℹ️ AI transformation returned an empty result. You might want to try a different prompt or check the input document." := by
      simp [transform_markdown_with_gpt, hT, hC]
    rw [e1]
    exact ⟨by decide, by decide⟩
  · intro c t hT hC
    simp [transform_markdown_with_gpt, hT, hC]
  · intro gpt dt t
    unfold pageFlow
    cases hb : strStarts t errorMark with
    | false =>
      simp [List.cons_append, List.contains_cons]
    | true =>
      rfl

/-- Witness for C8: at concrete inputs, a whitespace-only LLM result with
    a non-empty markdown input yields the `"ℹ️"`-prefixed (not
    `"⚠️ Error:"`-prefixed) message, a non-empty LLM result is returned
    stripped, and a rate-limit failure yields an `"⚠️ Error:"`-prefixed
    message. -/
theorem claim8_error_message_discipline_witness :
    (strStarts (transform_markdown_with_gpt true (GptOutcome.ok " ") "some markdown") "ℹ️" = true
      ∧ strStarts (transform_markdown_with_gpt true (GptOutcome.ok " ") "some markdown") errorMark = false)
    ∧ transform_markdown_with_gpt true (GptOutcome.ok " result ") "some markdown" = pyStrip " result "
    ∧ strStarts (transform_markdown_with_gpt true GptOutcome.rateLimitError "some markdown") errorMark = true :=
  ⟨claim8_error_message_discipline.2.2.2.2.2.2.2.1 " " "some markdown" (by decide) (by decide),
   claim8_error_message_discipline.2.2.2.2.2.2.2.2.1 " result " "some markdown" (by decide) (by decide),
   (claim8_error_message_discipline.2.2.2.2.2.2.1 "some markdown" (by decide) "e").2.1⟩

/-- The canonical order of a full successful run of the app script. -/
def canonicalOrder : List Step :=
  [Step.parseCall, Step.languageDetect, Step.tablesCheck, Step.imagesCheck,
   Step.transformCall, Step.interpretOutput, Step.serializeExports,
   Step.pageImageExtract, Step.embeddedImageExtract]

theorem pageFlow_sublist (gpt : String → String) (dt : Bool) (t : String) :
    List.Sublist (pageFlow gpt dt t) canonicalOrder.tail := by
  unfold pageFlow
  split
  · exact List.nil_sublist _
  · split
    · split
      · split
        · decide
        · split
          · decide
          · decide
      · decide
    · decide

theorem pageFlow_no_parseCall (gpt : String → String) (dt : Bool) (t : String) :
    (pageFlow gpt dt t).contains Step.parseCall = false := by
  unfold pageFlow
  split
  · decide
  · split
    · split
      · split
        · decide
        · split
          · decide
          · decide
      · decide
    · decide

theorem pageFlow_no_transform (gpt : String → String) (dt : Bool) (t : String)
    (h : ¬ GPT_MIN_TEXT_LENGTH ≤ (pyStrip t).length) :
    (pageFlow gpt dt t).contains Step.transformCall = false := by
  unfold pageFlow
  rw [if_neg h]
  split
  · decide
  · decide

/-- Claim C3 (amended): within one script run, the steps always occur in
    the relative order parse call, language detection, table regex check,
    image regex check, optional GPT transformation, JSON interpretation,
    serialization, page-image extraction, embedded-image extraction — in
    particular image extraction comes after the optional LLM call, not
    before it. -/
theorem claim3_step_order (svc gpt : String → String) (dt : Bool) (fresh : Nat)
    (name content : String) (s : AppState) :
    List.Sublist (runUpload svc gpt dt fresh name content s).2 canonicalOrder := by
  unfold runUpload parsePhase
  split
  · exact List.Sublist.cons _ (pageFlow_sublist gpt dt _)
  · exact List.Sublist.cons₂ _ (pageFlow_sublist gpt dt _)

set_option maxRecDepth 100000

/-- Claim C3 counterexample: on a concrete successful run the GPT call
    (and its interpretation and serialization) happens strictly before
    the image extraction, so the claimed order "image extraction, then
    the LLM call" is false on the code. -/
theorem claim3_order_counterexample :
    Step.transformCall ∈ (runUpload
        (fun _ => "aaaaaaaaaaaaaaaaaaaaaaaaaaaaaaaaaaaaaaaaaaaaaaaaaaaaaaaaaaaaaaaaaaaaaaaaaaaaaaaaaaaaaaaaaaaaaaaaaaaaaaaaaaaaaaaaaaaaaaaa")
        (fun _ => "ok") true 0 "f.pdf" "bytes" ⟨none, none, none⟩).2
    ∧ Step.pageImageExtract ∈ (runUpload
        (fun _ => "aaaaaaaaaaaaaaaaaaaaaaaaaaaaaaaaaaaaaaaaaaaaaaaaaaaaaaaaaaaaaaaaaaaaaaaaaaaaaaaaaaaaaaaaaaaaaaaaaaaaaaaaaaaaaaaaaaaaaaaa")
        (fun _ => "ok") true 0 "f.pdf" "bytes" ⟨none, none, none⟩).2
    ∧ ((runUpload
        (fun _ => "aaaaaaaaaaaaaaaaaaaaaaaaaaaaaaaaaaaaaaaaaaaaaaaaaaaaaaaaaaaaaaaaaaaaaaaaaaaaaaaaaaaaaaaaaaaaaaaaaaaaaaaaaaaaaaaaaaaaaaaa")
        (fun _ => "ok") true 0 "f.pdf" "bytes" ⟨none, none, none⟩).2.indexOf
          Step.transformCall
      < (runUpload
        (fun _ => "aaaaaaaaaaaaaaaaaaaaaaaaaaaaaaaaaaaaaaaaaaaaaaaaaaaaaaaaaaaaaaaaaaaaaaaaaaaaaaaaaaaaaaaaaaaaaaaaaaaaaaaaaaaaaaaaaaaaaaaa")
        (fun _ => "ok") true 0 "f.pdf" "bytes" ⟨none, none, none⟩).2.indexOf
          Step.pageImageExtract) := by
  decide

/-- Claim C9: the GPT transformation step never runs when the parsed
    text is shorter than `GPT_MIN_TEXT_LENGTH` after stripping: every
    run either has a parsed text of stripped length at least 100, or its
    trace has no `transformCall`. -/
theorem claim9_gpt_length_gate (svc gpt : String → String) (dt : Bool)
    (fresh : Nat) (name content : String) (s : AppState) :
    GPT_MIN_TEXT_LENGTH ≤
      (pyStrip (((runUpload svc gpt dt fresh name content s).1.parsedTextOrError).getD "")).length
    ∨ ((runUpload svc gpt dt fresh name content s).2.contains Step.transformCall) = false := by
  unfold runUpload parsePhase
  split
  · rename_i t heq
    by_cases h : GPT_MIN_TEXT_LENGTH ≤ (pyStrip t).length
    · left
      simpa [heq] using h
    · right
      simpa using pageFlow_no_transform gpt dt t h
  · by_cases h : GPT_MIN_TEXT_LENGTH ≤ (pyStrip (svc
        (((ensureTemp fresh content (resetState name s)).tempPdf.map Prod.snd).getD content))).length
    · left
      simpa using h
    · right
      simp only [List.contains_cons]
      simpa using pageFlow_no_transform gpt dt _ h

/-- Claim C10: the parse result is cached by file name only.  Uploading
    a file with the cached name reuses the parsed text and the temporary
    PDF unchanged, with no parse call, whatever the new content is;
    uploading a file with a different name resets both and parses the
    new content. -/
theorem claim10_cache_by_name (svc gpt : String → String) (dt : Bool)
    (fresh : Nat) (name content : String) (s : AppState) :
    (s.lastFileName = some name →
      ∀ tp txt, s.tempPdf = some tp → s.parsedTextOrError = some txt →
        (runUpload svc gpt dt fresh name content s).1 = s
        ∧ ((runUpload svc gpt dt fresh name content s).2.contains Step.parseCall) = false)
    ∧ (s.lastFileName ≠ some name →
        (runUpload svc gpt dt fresh name content s).1.tempPdf = some (fresh, content)
        ∧ (runUpload svc gpt dt fresh name content s).1.parsedTextOrError = some (svc content)
        ∧ ((runUpload svc gpt dt fresh name content s).2.contains Step.parseCall) = true) := by
  constructor
  · intro hname tp txt htp htxt
    have hreset : resetState name s = s := if_pos hname
    have htemp : ensureTemp fresh content s = s := by
      unfold ensureTemp
      rw [if_neg (by simp [htp])]
    unfold runUpload parsePhase
    rw [hreset, htemp, htxt]
    exact ⟨rfl, pageFlow_no_parseCall gpt dt txt⟩
  · intro hname
    have hreset : resetState name s = ⟨some name, none, none⟩ := if_neg hname
    unfold runUpload parsePhase ensureTemp
    rw [hreset]
    exact ⟨rfl, rfl, by simp [List.contains_cons]⟩

/-- Witness for C10: re-uploading a file named `"a.pdf"` with different
    bytes, while the session has `"a.pdf"` cached, leaves the session
    state untouched and performs no parse call. -/
theorem claim10_cache_by_name_witness :
    (runUpload (fun _ => "P") (fun _ => "G") false 7 "a.pdf" "NEW"
        ⟨some "a.pdf", some "CACHED", some (3, "OLD")⟩).1
      = ⟨some "a.pdf", some "CACHED", some (3, "OLD")⟩
    ∧ ((runUpload (fun _ => "P") (fun _ => "G") false 7 "a.pdf" "NEW"
        ⟨some "a.pdf", some "CACHED", some (3, "OLD")⟩).2.contains Step.parseCall) = false :=
  (claim10_cache_by_name (fun _ => "P") (fun _ => "G") false 7 "a.pdf" "NEW"
      ⟨some "a.pdf", some "CACHED", some (3, "OLD")⟩).1
    rfl (3, "OLD") "CACHED" rfl rfl

end Braiter
